import Mathlib

/-!
Verification of the sync-fence module (`src/sync.rs`) of the glium repository.

The module manages OpenGL sync fences: it probes the context's capabilities,
creates a native fence object, waits on it in two phases (a zero-timeout poll,
then a flushing wait with a one-year deadline) and deletes it, enforcing a
single-use ownership discipline.

The embedding below models the driver as an oracle: each call the Rust code
issues to the GL driver is recorded as a `DriverCall` event, and the driver's
answers to the successive `ClientWaitSync` calls of one `client_wait`
invocation are supplied by a function `DriverOracle`. A Rust `panic` (from
`unwrap`, an unreachable branch, a failed assertion, or the explicit wait
failure) is modelled as `Except.error` carrying the kind of panic.
-/

/-- OpenGL API kind, from glium's `version::Api`. -/
inductive Api
  | Gl
  | GlEs
  deriving DecidableEq, Repr

/-- A context version, from glium's `version::Version` (API, major, minor). -/
structure Version where
  api : Api
  major : Nat
  minor : Nat
  deriving DecidableEq, Repr

/-- Modelled from the spec: the `>=` comparison on `version::Version`
(`version.rs` is not among the provided sources). Per spec section 4.1, a bound
such as `>= Version(Api::Gl, 3, 2)` holds only for a context of that same API
kind ("version >= 3.2 core", "embedded-profile context with version >= 3.0"),
comparing `(major, minor)` lexicographically. -/
def versionGe (v w : Version) : Bool :=
  v.api == w.api &&
    (decide (w.major < v.major) || (v.major == w.major && decide (w.minor ≤ v.minor)))

/-- Native sync handles (`gl::types::GLsync`, an opaque pointer), modelled as
numeric identifiers. -/
abbrev GLsync := Nat

/-- Values of `gl::types::GLenum`. -/
abbrev GLenum := Nat

/-- Constant `gl::ALREADY_SIGNALED`. -/
def ALREADY_SIGNALED : GLenum := 0x911A

/-- Constant `gl::TIMEOUT_EXPIRED`. -/
def TIMEOUT_EXPIRED : GLenum := 0x911B

/-- Constant `gl::CONDITION_SATISFIED`. -/
def CONDITION_SATISFIED : GLenum := 0x911C

/-- Constant `gl::WAIT_FAILED`. -/
def WAIT_FAILED : GLenum := 0x911D

/-- Constant `gl::SYNC_FLUSH_COMMANDS_BIT`. -/
def SYNC_FLUSH_COMMANDS_BIT : GLenum := 0x00000001

/-- Constant `gl::SYNC_FLUSH_COMMANDS_BIT_APPLE` (same value as the core bit). -/
def SYNC_FLUSH_COMMANDS_BIT_APPLE : GLenum := 0x00000001

/-- Constant `gl::SYNC_GPU_COMMANDS_COMPLETE`. -/
def SYNC_GPU_COMMANDS_COMPLETE : GLenum := 0x9117

/-- Constant `gl::SYNC_GPU_COMMANDS_COMPLETE_APPLE` (same value as core). -/
def SYNC_GPU_COMMANDS_COMPLETE_APPLE : GLenum := 0x9117

/-- The extension flags of `context::ExtensionsList` that `sync.rs` consults. -/
structure ExtensionsList where
  gl_arb_sync : Bool
  gl_apple_sync : Bool
  deriving DecidableEq, Repr

/-- The part of `context::CommandContext` that `sync.rs` reads: the context
version and the extension flags. -/
structure CommandContext where
  version : Version
  extensions : ExtensionsList
  deriving DecidableEq, Repr

/-- Which of the two mutually exclusive driver call sets a call goes through:
the core/ARB entry points (`FenceSync`, `ClientWaitSync`, `DeleteSync`) or the
APPLE-extension ones (`FenceSyncAPPLE`, ...). -/
inductive GLVariant
  | core
  | apple
  deriving DecidableEq, Repr

/-- One call issued to the GL driver or to the context collaborator. -/
inductive DriverCall
  | makeCurrent
  | fenceSync (variant : GLVariant) (condition : GLenum) (flags : GLenum)
  | clientWaitSync (variant : GLVariant) (sync : GLsync) (flags : GLenum) (timeout_ns : Nat)
  | deleteSync (variant : GLVariant) (sync : GLsync)
  deriving DecidableEq, Repr

/-- The kinds of Rust panic the module can raise. `unwrapNone` is `unwrap()` of
an empty `Option`; `unreachableVariant` is the capability fall-through branch
(no variant matched); `unreachableResult` is the branch for a driver wait
answer outside the four documented outcomes; `waitContractViolation` is the
explicit "Could not wait for the fence" failure of `SyncFence::wait`;
`assertionFailure` is the failed assertion in the prototype's destructor. -/
inductive Panic
  | unwrapNone
  | unreachableVariant
  | unreachableResult
  | waitContractViolation
  | assertionFailure
  deriving DecidableEq, Repr

/-- Driver answers to the successive `ClientWaitSync`/`ClientWaitSyncAPPLE`
calls of one `client_wait` invocation: `oracle n` is the `GLenum` the driver
returns for the `n`-th wait call (0-based). -/
abbrev DriverOracle := Nat → GLenum

/-- The capability test written out verbatim four times in `sync.rs` (lines
119-120, 161-162, 181-182 and 201-202):
`ctxt.version >= &Version(Api::Gl, 3, 2) || ctxt.version >= &Version(Api::GlEs, 3, 0) || ctxt.extensions.gl_arb_sync`. -/
def core_sync_available (ctxt : CommandContext) : Bool :=
  versionGe ctxt.version ⟨Api.Gl, 3, 2⟩ || versionGe ctxt.version ⟨Api.GlEs, 3, 0⟩ ||
    ctxt.extensions.gl_arb_sync

/-- A context supports fences at all: some branch of the dispatch applies. -/
def fence_supported (ctxt : CommandContext) : Bool :=
  core_sync_available ctxt || ctxt.extensions.gl_apple_sync

/-- The driver call set a supported context dispatches to: core when the core
condition holds, otherwise the APPLE extension. -/
def dispatchVariant (ctxt : CommandContext) : GLVariant :=
  if core_sync_available ctxt then GLVariant.core else GLVariant.apple

/-- The flush-commands bit passed to the second wait of each variant. -/
def flushBitOf : GLVariant → GLenum
  | GLVariant.core => SYNC_FLUSH_COMMANDS_BIT
  | GLVariant.apple => SYNC_FLUSH_COMMANDS_BIT_APPLE

/-- Struct `LinearSyncFence` (sync.rs lines 85-87): the prototype fence,
wrapping `id: Option<GLsync>`. -/
structure LinearSyncFence where
  id : Option GLsync
  deriving DecidableEq, Repr

/-- Struct `SyncFence` (sync.rs lines 27-30): the bound fence. The
`Rc<Context>` field is modelled by the context snapshot it dereferences to. -/
structure SyncFence where
  context : CommandContext
  id : Option GLsync
  deriving DecidableEq, Repr

/-- Function `client_wait` (sync.rs lines 159-192). Tries a non-flushing
zero-timeout wait first; on `TIMEOUT_EXPIRED` or `WAIT_FAILED` issues a second
wait with the flush bit and a one-year timeout. Returns the driver calls
issued together with the resulting `GLenum`, or the panic the Rust code would
raise. -/
def client_wait (ctxt : CommandContext) (fence : GLsync) (oracle : DriverOracle) :
    List DriverCall × Except Panic GLenum :=
  -- trying without flushing first
  let first : Option (DriverCall × GLenum) :=
    if core_sync_available ctxt then
      some (DriverCall.clientWaitSync GLVariant.core fence 0 0, oracle 0)
    else if ctxt.extensions.gl_apple_sync then
      some (DriverCall.clientWaitSync GLVariant.apple fence 0 0, oracle 0)
    else
      none
  match first with
  | none => ([], Except.error Panic.unreachableVariant)
  | some (c₀, result) =>
    if result = ALREADY_SIGNALED ∨ result = CONDITION_SATISFIED then
      ([c₀], Except.ok result)
    else if result = TIMEOUT_EXPIRED ∨ result = WAIT_FAILED then
      -- waiting with a deadline of one year
      if core_sync_available ctxt then
        ([c₀, DriverCall.clientWaitSync GLVariant.core fence SYNC_FLUSH_COMMANDS_BIT
            (365 * 24 * 3600 * 1000 * 1000 * 1000)],
          Except.ok (oracle 1))
      else if ctxt.extensions.gl_apple_sync then
        ([c₀, DriverCall.clientWaitSync GLVariant.apple fence SYNC_FLUSH_COMMANDS_BIT_APPLE
            (365 * 24 * 3600 * 1000 * 1000 * 1000)],
          Except.ok (oracle 1))
      else
        ([c₀], Except.error Panic.unreachableVariant)
    else
      ([c₀], Except.error Panic.unreachableResult)

/-- Function `delete_fence` (sync.rs lines 200-210). -/
def delete_fence (ctxt : CommandContext) (fence : GLsync) :
    List DriverCall × Except Panic Unit :=
  if core_sync_available ctxt then
    ([DriverCall.deleteSync GLVariant.core fence], Except.ok ())
  else if ctxt.extensions.gl_apple_sync then
    ([DriverCall.deleteSync GLVariant.apple fence], Except.ok ())
  else
    ([], Except.error Panic.unreachableVariant)

/-- Function `new_linear_sync_fence_if_supported` (sync.rs lines 116-134).
`newHandle` is the native handle the driver's `FenceSync` call returns when
one is issued. -/
def new_linear_sync_fence_if_supported (ctxt : CommandContext) (newHandle : GLsync) :
    List DriverCall × Option LinearSyncFence :=
  if core_sync_available ctxt then
    ([DriverCall.fenceSync GLVariant.core SYNC_GPU_COMMANDS_COMPLETE 0],
      some { id := some newHandle })
  else if ctxt.extensions.gl_apple_sync then
    ([DriverCall.fenceSync GLVariant.apple SYNC_GPU_COMMANDS_COMPLETE_APPLE 0],
      some { id := some newHandle })
  else
    ([], none)

/-- Method `LinearSyncFence::into_sync_fence` (sync.rs lines 93-98). Returns
the emptied prototype (`self.id.take()` leaves `None` behind) together with
the bound fence. -/
def LinearSyncFence.into_sync_fence (f : LinearSyncFence) (ctxt : CommandContext) :
    LinearSyncFence × SyncFence :=
  ({ id := none }, { context := ctxt, id := f.id })

/-- Method `SyncFence::new_if_supported` (sync.rs lines 46-51): makes the
context current, creates the prototype if supported and binds it. -/
def SyncFence.new_if_supported (ctxt : CommandContext) (newHandle : GLsync) :
    List DriverCall × Option SyncFence :=
  let created := new_linear_sync_fence_if_supported ctxt newHandle
  (DriverCall.makeCurrent :: created.1,
    created.2.map fun f => (f.into_sync_fence ctxt).2)

/-- Method `SyncFence::wait` (sync.rs lines 54-65). Consumes the fence: takes
the handle, makes the context current, waits, deletes, then inspects the wait
result. Returns the driver calls issued, the fence as its destructor will
later see it (`id` taken), and the normal or panicking outcome. A panic in
`client_wait` propagates before `delete_fence` runs, as in the Rust code. -/
def SyncFence.wait (f : SyncFence) (oracle : DriverOracle) :
    List DriverCall × SyncFence × Except Panic Unit :=
  match f.id with
  | none => ([], { f with id := none }, Except.error Panic.unwrapNone)
  | some sync =>
    let f' : SyncFence := { f with id := none }
    let waited := client_wait f.context sync oracle
    match waited.2 with
    | Except.error p => (DriverCall.makeCurrent :: waited.1, f', Except.error p)
    | Except.ok result =>
      let deleted := delete_fence f.context sync
      match deleted.2 with
      | Except.error p =>
        (DriverCall.makeCurrent :: (waited.1 ++ deleted.1), f', Except.error p)
      | Except.ok _ =>
        (DriverCall.makeCurrent :: (waited.1 ++ deleted.1), f',
          if result = ALREADY_SIGNALED ∨ result = CONDITION_SATISFIED then
            Except.ok ()
          else
            Except.error Panic.waitContractViolation)

/-- The destructor `impl Drop for SyncFence` (sync.rs lines 68-78): if the
handle was already taken it returns at once with no call; otherwise it makes
the context current and deletes the handle. -/
def SyncFence.drop (f : SyncFence) : List DriverCall × Except Panic Unit :=
  match f.id with
  | none => ([], Except.ok ())
  | some sync =>
    let deleted := delete_fence f.context sync
    (DriverCall.makeCurrent :: deleted.1, deleted.2)

/-- The destructor `impl Drop for LinearSyncFence` (sync.rs lines 101-107):
unless the thread is already panicking, asserts that the handle was taken. -/
def LinearSyncFence.drop (f : LinearSyncFence) (thread_panicking : Bool) :
    Except Panic Unit :=
  if !thread_panicking then
    if f.id.isNone then Except.ok () else Except.error Panic.assertionFailure
  else
    Except.ok ()

/-- Function `wait_linear_sync_fence_and_drop` (sync.rs lines 137-143): takes
the handle, calls `client_wait` discarding its result, and deletes the
handle. -/
def wait_linear_sync_fence_and_drop (f : LinearSyncFence) (ctxt : CommandContext)
    (oracle : DriverOracle) : List DriverCall × LinearSyncFence × Except Panic Unit :=
  match f.id with
  | none => ([], { id := none }, Except.error Panic.unwrapNone)
  | some fence =>
    let waited := client_wait ctxt fence oracle
    match waited.2 with
    | Except.error p => (waited.1, { id := none }, Except.error p)
    | Except.ok _ =>
      let deleted := delete_fence ctxt fence
      (waited.1 ++ deleted.1, { id := none }, deleted.2)

/-- The capability variants of the spec's data model (section 3). The source
has no such enum; the resolver policy of spec section 4.1 never yields
`ArbSyncExtension`, folding the ARB flag into `CoreOrEsSync`. -/
inductive Capability
  | CoreOrEsSync
  | ArbSyncExtension
  | AppleSyncExtension
  | Unsupported
  deriving DecidableEq, Repr

/-- Capability resolution as the spec words it (section 4.1, first match
wins): version at least 3.2 core, or an embedded-profile context of version at
least 3.0, or the generic sync extension flag, gives `CoreOrEsSync`; else the
Apple sync extension flag gives `AppleSyncExtension`; else `Unsupported`. -/
def spec_capability (ctxt : CommandContext) : Capability :=
  if versionGe ctxt.version ⟨Api.Gl, 3, 2⟩ || versionGe ctxt.version ⟨Api.GlEs, 3, 0⟩ ||
      ctxt.extensions.gl_arb_sync then
    Capability.CoreOrEsSync
  else if ctxt.extensions.gl_apple_sync then
    Capability.AppleSyncExtension
  else
    Capability.Unsupported

/-- Number of driver delete calls on handle `h` in a call trace. -/
def deleteCount (t : List DriverCall) (h : GLsync) : Nat :=
  (t.filter fun c =>
    match c with
    | DriverCall.deleteSync _ s => s == h
    | _ => false).length

/-- Whether a call is a fence driver call (create, wait or delete) as opposed
to making the context current. -/
def isFenceDriverCall : DriverCall → Bool
  | DriverCall.makeCurrent => false
  | _ => true

/-- All driver calls issued over the create, bind, wait, drop lifecycle of a
single fence with handle `h`, in order. -/
def lifecycleTrace (ctxt : CommandContext) (h : GLsync) (oracle : DriverOracle) :
    List DriverCall :=
  (new_linear_sync_fence_if_supported ctxt h).1 ++
    (SyncFence.wait ((LinearSyncFence.into_sync_fence { id := some h } ctxt).2) oracle).1 ++
    (SyncFence.drop
      (SyncFence.wait ((LinearSyncFence.into_sync_fence { id := some h } ctxt).2) oracle).2.1).1

/-- A concrete desktop GL 4.5 context with no sync extensions. -/
def ctxtCore : CommandContext :=
  { version := { api := Api.Gl, major := 4, minor := 5 },
    extensions := { gl_arb_sync := false, gl_apple_sync := false } }

/-- A concrete GL 2.1 context exposing only the Apple sync extension. -/
def ctxtApple : CommandContext :=
  { version := { api := Api.Gl, major := 2, minor := 1 },
    extensions := { gl_arb_sync := false, gl_apple_sync := true } }

/-- A concrete GL 2.1 context with no sync support at all. -/
def ctxtNone : CommandContext :=
  { version := { api := Api.Gl, major := 2, minor := 1 },
    extensions := { gl_arb_sync := false, gl_apple_sync := false } }

/-- A driver whose every wait answer is `ALREADY_SIGNALED`. -/
def oracleSignaled : DriverOracle := fun _ => ALREADY_SIGNALED

/-- A driver whose every wait answer is `TIMEOUT_EXPIRED`. -/
def oracleTimeout : DriverOracle := fun _ => TIMEOUT_EXPIRED

/-- A driver answering `TIMEOUT_EXPIRED` to the first wait and
`ALREADY_SIGNALED` afterwards. -/
def oracleTimeoutThenSignaled : DriverOracle :=
  fun n => if n = 0 then TIMEOUT_EXPIRED else ALREADY_SIGNALED

/-! Helper lemmas shared by the claim theorems. -/

/-- On a supported context, either the core condition holds, or it fails and
the Apple extension flag is set. -/
theorem fence_supported_cases {ctxt : CommandContext} (hs : fence_supported ctxt = true) :
    core_sync_available ctxt = true ∨
      (core_sync_available ctxt = false ∧ ctxt.extensions.gl_apple_sync = true) := by
  unfold fence_supported at hs
  cases hc : core_sync_available ctxt
  · right
    refine ⟨rfl, ?_⟩
    rw [hc] at hs
    simpa using hs
  · left
    rfl

/-- On a supported context, a first wait answer of `ALREADY_SIGNALED` or
`CONDITION_SATISFIED` makes `client_wait` return it after the single
non-flushing zero-timeout call. -/
theorem client_wait_signaled {ctxt : CommandContext} {fence : GLsync} {oracle : DriverOracle}
    (hs : fence_supported ctxt = true)
    (h0 : oracle 0 = ALREADY_SIGNALED ∨ oracle 0 = CONDITION_SATISFIED) :
    client_wait ctxt fence oracle =
      ([DriverCall.clientWaitSync (dispatchVariant ctxt) fence 0 0], Except.ok (oracle 0)) := by
  rcases fence_supported_cases hs with hc | ⟨hc, ha⟩
  · rcases h0 with h0 | h0 <;> simp [client_wait, dispatchVariant, hc, h0]
  · rcases h0 with h0 | h0 <;> simp [client_wait, dispatchVariant, hc, ha, h0]

/-- On a supported context, a first wait answer of `TIMEOUT_EXPIRED` or
`WAIT_FAILED` makes `client_wait` issue exactly one more wait call, with the
flush bit and the one-year timeout, and return its answer. -/
theorem client_wait_timeout {ctxt : CommandContext} {fence : GLsync} {oracle : DriverOracle}
    (hs : fence_supported ctxt = true)
    (h0 : oracle 0 = TIMEOUT_EXPIRED ∨ oracle 0 = WAIT_FAILED) :
    client_wait ctxt fence oracle =
      ([DriverCall.clientWaitSync (dispatchVariant ctxt) fence 0 0,
        DriverCall.clientWaitSync (dispatchVariant ctxt) fence
          (flushBitOf (dispatchVariant ctxt)) (365 * 24 * 3600 * 1000 * 1000 * 1000)],
        Except.ok (oracle 1)) := by
  rcases fence_supported_cases hs with hc | ⟨hc, ha⟩
  · rcases h0 with h0 | h0 <;>
      simp [client_wait, dispatchVariant, flushBitOf, hc, h0,
        ALREADY_SIGNALED, CONDITION_SATISFIED, TIMEOUT_EXPIRED, WAIT_FAILED,
        SYNC_FLUSH_COMMANDS_BIT, SYNC_FLUSH_COMMANDS_BIT_APPLE]
  · rcases h0 with h0 | h0 <;>
      simp [client_wait, dispatchVariant, flushBitOf, hc, ha, h0,
        ALREADY_SIGNALED, CONDITION_SATISFIED, TIMEOUT_EXPIRED, WAIT_FAILED,
        SYNC_FLUSH_COMMANDS_BIT, SYNC_FLUSH_COMMANDS_BIT_APPLE]

/-- On a supported context, `delete_fence` issues exactly one delete through
the dispatched variant and succeeds. -/
theorem delete_fence_eq {ctxt : CommandContext} (hs : fence_supported ctxt = true)
    (fence : GLsync) :
    delete_fence ctxt fence =
      ([DriverCall.deleteSync (dispatchVariant ctxt) fence], Except.ok ()) := by
  rcases fence_supported_cases hs with hc | ⟨hc, ha⟩
  · simp [delete_fence, dispatchVariant, hc]
  · simp [delete_fence, dispatchVariant, hc, ha]

/-- C1: capability resolution is a deterministic pure function of the context
snapshot: `new_linear_sync_fence_if_supported` creates the fence through the
core call set exactly when the resolved variant is `CoreOrEsSync` (GL version
at least 3.2, or GLES version at least 3.0, or `gl_arb_sync` set), through the
APPLE call set exactly when it is `AppleSyncExtension` (`gl_apple_sync` set and
nothing above), and returns `none` with no driver call exactly when it is
`Unsupported`. Being an equation between functions of the snapshot, the same
inputs always yield the same variant. (The `ArbSyncExtension` branch of the
match is never taken: the resolver folds the ARB flag into `CoreOrEsSync`.) -/
theorem C1_capability_resolution (ctxt : CommandContext) (h : GLsync) :
    new_linear_sync_fence_if_supported ctxt h =
      match spec_capability ctxt with
      | Capability.CoreOrEsSync =>
        ([DriverCall.fenceSync GLVariant.core SYNC_GPU_COMMANDS_COMPLETE 0],
          some { id := some h })
      | Capability.ArbSyncExtension =>
        ([DriverCall.fenceSync GLVariant.core SYNC_GPU_COMMANDS_COMPLETE 0],
          some { id := some h })
      | Capability.AppleSyncExtension =>
        ([DriverCall.fenceSync GLVariant.apple SYNC_GPU_COMMANDS_COMPLETE_APPLE 0],
          some { id := some h })
      | Capability.Unsupported => ([], none) := by
  unfold new_linear_sync_fence_if_supported spec_capability core_sync_available
  cases h1 : versionGe ctxt.version ⟨Api.Gl, 3, 2⟩ <;>
    cases h2 : versionGe ctxt.version ⟨Api.GlEs, 3, 0⟩ <;>
      cases h3 : ctxt.extensions.gl_arb_sync <;>
        cases h4 : ctxt.extensions.gl_apple_sync <;>
          simp

/-- C2: on a supported context, `client_wait` first issues a non-flushing wait
with timeout 0; if that answer is `ALREADY_SIGNALED` or `CONDITION_SATISFIED`
it is returned at once with no second driver call; if it is `TIMEOUT_EXPIRED`
or `WAIT_FAILED`, exactly one further wait is issued, with the flush-commands
bit and a timeout of 365 * 24 * 3600 * 1000 * 1000 * 1000 nanoseconds, and its
answer is returned. -/
theorem C2_client_wait_two_phase (ctxt : CommandContext) (fence : GLsync)
    (oracle : DriverOracle) (hs : fence_supported ctxt = true) :
    ((oracle 0 = ALREADY_SIGNALED ∨ oracle 0 = CONDITION_SATISFIED) →
      client_wait ctxt fence oracle =
        ([DriverCall.clientWaitSync (dispatchVariant ctxt) fence 0 0],
          Except.ok (oracle 0))) ∧
    ((oracle 0 = TIMEOUT_EXPIRED ∨ oracle 0 = WAIT_FAILED) →
      client_wait ctxt fence oracle =
        ([DriverCall.clientWaitSync (dispatchVariant ctxt) fence 0 0,
          DriverCall.clientWaitSync (dispatchVariant ctxt) fence
            (flushBitOf (dispatchVariant ctxt)) (365 * 24 * 3600 * 1000 * 1000 * 1000)],
          Except.ok (oracle 1))) :=
  ⟨fun h0 => client_wait_signaled hs h0, fun h0 => client_wait_timeout hs h0⟩

/-- Witness for C2: a concrete GL 4.5 context and a driver answering
`TIMEOUT_EXPIRED` then `ALREADY_SIGNALED`: both wait calls appear, the second
flushing with the one-year timeout, and the second answer is returned. -/
theorem C2_witness :
    client_wait ctxtCore 7 oracleTimeoutThenSignaled =
      ([DriverCall.clientWaitSync (dispatchVariant ctxtCore) 7 0 0,
        DriverCall.clientWaitSync (dispatchVariant ctxtCore) 7
          (flushBitOf (dispatchVariant ctxtCore)) (365 * 24 * 3600 * 1000 * 1000 * 1000)],
        Except.ok (oracleTimeoutThenSignaled 1)) :=
  (C2_client_wait_two_phase ctxtCore 7 oracleTimeoutThenSignaled (by decide)).2 (Or.inl rfl)

/-- C3: if the driver answers `TIMEOUT_EXPIRED` or `WAIT_FAILED` to the
zero-timeout poll and anything other than `ALREADY_SIGNALED` or
`CONDITION_SATISFIED` to the flushing long-timeout wait, then `SyncFence::wait`
ends in the wait-contract-violation panic instead of returning normally. -/
theorem C3_wait_contract_violation (ctxt : CommandContext) (s : GLsync)
    (oracle : DriverOracle) (hs : fence_supported ctxt = true)
    (h0 : oracle 0 = TIMEOUT_EXPIRED ∨ oracle 0 = WAIT_FAILED)
    (h1 : oracle 1 ≠ ALREADY_SIGNALED ∧ oracle 1 ≠ CONDITION_SATISFIED) :
    (SyncFence.wait { context := ctxt, id := some s } oracle).2.2 =
      Except.error Panic.waitContractViolation := by
  simp [SyncFence.wait, client_wait_timeout hs h0, delete_fence_eq hs, h1.1, h1.2]

/-- Witness for C3: on a concrete GL 4.5 context with a driver stuck on
`TIMEOUT_EXPIRED`, `wait` ends in the wait-contract-violation panic. -/
theorem C3_witness :
    (SyncFence.wait { context := ctxtCore, id := some 7 } oracleTimeout).2.2 =
      Except.error Panic.waitContractViolation :=
  C3_wait_contract_violation ctxtCore 7 oracleTimeout (by decide) (Or.inl rfl)
    ⟨by decide, by decide⟩

/-- On a supported context, a first wait answer outside the four documented
outcomes makes `client_wait` end in the unreachable-result panic after the
single poll. -/
theorem client_wait_unreachable_result {ctxt : CommandContext} {fence : GLsync}
    {oracle : DriverOracle} (hs : fence_supported ctxt = true)
    (hA : ¬(oracle 0 = ALREADY_SIGNALED ∨ oracle 0 = CONDITION_SATISFIED))
    (hB : ¬(oracle 0 = TIMEOUT_EXPIRED ∨ oracle 0 = WAIT_FAILED)) :
    client_wait ctxt fence oracle =
      ([DriverCall.clientWaitSync (dispatchVariant ctxt) fence 0 0],
        Except.error Panic.unreachableResult) := by
  rcases fence_supported_cases hs with hc | ⟨hc, ha⟩
  · simp [client_wait, dispatchVariant, hc, hA, hB]
  · simp [client_wait, dispatchVariant, hc, ha, hA, hB]

/-- On a supported context, a documented first wait answer makes `client_wait`
succeed, with either one or two wait calls in its trace. -/
theorem client_wait_documented {ctxt : CommandContext} {fence : GLsync}
    {oracle : DriverOracle} (hs : fence_supported ctxt = true)
    (h0 : oracle 0 = ALREADY_SIGNALED ∨ oracle 0 = CONDITION_SATISFIED ∨
          oracle 0 = TIMEOUT_EXPIRED ∨ oracle 0 = WAIT_FAILED) :
    client_wait ctxt fence oracle =
      ([DriverCall.clientWaitSync (dispatchVariant ctxt) fence 0 0],
        Except.ok (oracle 0)) ∨
    client_wait ctxt fence oracle =
      ([DriverCall.clientWaitSync (dispatchVariant ctxt) fence 0 0,
        DriverCall.clientWaitSync (dispatchVariant ctxt) fence
          (flushBitOf (dispatchVariant ctxt)) (365 * 24 * 3600 * 1000 * 1000 * 1000)],
        Except.ok (oracle 1)) := by
  rcases h0 with h0 | h0 | h0 | h0
  · exact Or.inl (client_wait_signaled hs (Or.inl h0))
  · exact Or.inl (client_wait_signaled hs (Or.inr h0))
  · exact Or.inr (client_wait_timeout hs (Or.inl h0))
  · exact Or.inr (client_wait_timeout hs (Or.inr h0))

/-- On a supported context, the creation function issues exactly one create
call and returns a prototype holding the new handle. -/
theorem new_fence_supported_eq {ctxt : CommandContext} (hs : fence_supported ctxt = true)
    (h : GLsync) :
    new_linear_sync_fence_if_supported ctxt h =
      ([DriverCall.fenceSync (dispatchVariant ctxt) 0x9117 0], some { id := some h }) := by
  rcases fence_supported_cases hs with hc | ⟨hc, ha⟩
  · simp [new_linear_sync_fence_if_supported, dispatchVariant, hc, SYNC_GPU_COMMANDS_COMPLETE]
  · simp [new_linear_sync_fence_if_supported, dispatchVariant, hc, ha,
      SYNC_GPU_COMMANDS_COMPLETE_APPLE]

/-- C4: over the create, bind, wait, drop lifecycle of one fence on a supported
context (with the driver answering one of its four documented outcomes to the
poll), the delete call on the native handle is issued exactly once: binding
empties the prototype, `wait` takes the handle (leaving `id = none`) before
deleting, and the subsequent destructor of the consumed fence issues no driver
call at all. -/
theorem C4_exactly_one_delete (ctxt : CommandContext) (h : GLsync) (oracle : DriverOracle)
    (hs : fence_supported ctxt = true)
    (h0 : oracle 0 = ALREADY_SIGNALED ∨ oracle 0 = CONDITION_SATISFIED ∨
          oracle 0 = TIMEOUT_EXPIRED ∨ oracle 0 = WAIT_FAILED) :
    (new_linear_sync_fence_if_supported ctxt h).2 = some { id := some h } ∧
    (LinearSyncFence.into_sync_fence { id := some h } ctxt).1.id = none ∧
    (SyncFence.wait ((LinearSyncFence.into_sync_fence { id := some h } ctxt).2) oracle).2.1.id
      = none ∧
    (SyncFence.drop
      (SyncFence.wait ((LinearSyncFence.into_sync_fence { id := some h } ctxt).2) oracle).2.1).1
      = [] ∧
    deleteCount (lifecycleTrace ctxt h oracle) h = 1 := by
  have hnew := new_fence_supported_eq hs h
  have hdel := delete_fence_eq hs h
  rcases @client_wait_documented ctxt h oracle hs h0 with hcw | hcw <;>
    refine ⟨by simp [hnew], rfl, ?_, ?_, ?_⟩ <;>
      simp [lifecycleTrace, SyncFence.wait, SyncFence.drop, LinearSyncFence.into_sync_fence,
        hnew, hcw, hdel, deleteCount]

/-- Witness for C4: concrete GL 4.5 context, handle 3, driver immediately
signalled: the whole lifecycle contains exactly one delete call on handle 3. -/
theorem C4_witness : deleteCount (lifecycleTrace ctxtCore 3 oracleSignaled) 3 = 1 :=
  (C4_exactly_one_delete ctxtCore 3 oracleSignaled (by decide) (Or.inl rfl)).2.2.2.2

/-- C5: dropping a bound fence whose handle is still present makes the owning
context current and issues exactly one delete call on the handle; dropping one
whose handle was already taken performs no context or driver call at all. -/
theorem C5_drop_deletes_once (ctxt : CommandContext) (s : GLsync)
    (hs : fence_supported ctxt = true) :
    SyncFence.drop { context := ctxt, id := some s } =
      ([DriverCall.makeCurrent, DriverCall.deleteSync (dispatchVariant ctxt) s],
        Except.ok ()) ∧
    ∀ c : CommandContext, SyncFence.drop { context := c, id := none } = ([], Except.ok ()) := by
  refine ⟨?_, fun c => rfl⟩
  simp [SyncFence.drop, delete_fence_eq hs]

/-- Witness for C5: dropping an un-waited bound fence on the concrete
Apple-extension context issues the make-current call and one APPLE delete. -/
theorem C5_witness :
    SyncFence.drop { context := ctxtApple, id := some 7 } =
      ([DriverCall.makeCurrent, DriverCall.deleteSync (dispatchVariant ctxtApple) 7],
        Except.ok ()) :=
  (C5_drop_deletes_once ctxtApple 7 (by decide)).1

/-- C6: the prototype's destructor fails its assertion when the handle is still
present and the thread is not already panicking; the assertion is suppressed
while unwinding from another panic; a taken prototype drops silently in all
cases. -/
theorem C6_prototype_drop_assertion (s : GLsync) :
    LinearSyncFence.drop { id := some s } false = Except.error Panic.assertionFailure ∧
    LinearSyncFence.drop { id := some s } true = Except.ok () ∧
    (∀ b : Bool, LinearSyncFence.drop { id := none } b = Except.ok ()) := by
  refine ⟨rfl, rfl, fun b => ?_⟩
  cases b <;> rfl

/-- C7: on a context whose capability resolves to `Unsupported`,
`SyncFence::new_if_supported` returns no fence and, beyond making the context
current, performs zero driver fence calls: no create, no wait, no delete. -/
theorem C7_unsupported_no_driver_calls (ctxt : CommandContext) (h : GLsync)
    (hu : spec_capability ctxt = Capability.Unsupported) :
    SyncFence.new_if_supported ctxt h = ([DriverCall.makeCurrent], none) ∧
    (SyncFence.new_if_supported ctxt h).1.filter isFenceDriverCall = [] := by
  have hc : core_sync_available ctxt = false ∧ ctxt.extensions.gl_apple_sync = false := by
    revert hu
    unfold spec_capability core_sync_available
    cases h1 : versionGe ctxt.version ⟨Api.Gl, 3, 2⟩ <;>
      cases h2 : versionGe ctxt.version ⟨Api.GlEs, 3, 0⟩ <;>
        cases h3 : ctxt.extensions.gl_arb_sync <;>
          cases h4 : ctxt.extensions.gl_apple_sync <;>
            simp
  constructor <;>
    simp [SyncFence.new_if_supported, new_linear_sync_fence_if_supported, hc.1, hc.2,
      isFenceDriverCall]

/-- Witness for C7: the concrete GL 2.1 context without sync extensions gets no
fence and only the make-current call. -/
theorem C7_witness : SyncFence.new_if_supported ctxtNone 7 = ([DriverCall.makeCurrent], none) :=
  (C7_unsupported_no_driver_calls ctxtNone 7 (by decide)).1

/-- C8: on a supported context, the capability condition re-evaluated inside
`client_wait` and `delete_fence` never reaches the unreachable fall-through:
`client_wait` never ends in the variant fall-through panic and its trace
consists of one or two wait calls through the single dispatched variant, and
`delete_fence` issues exactly one delete through that same variant and
succeeds. -/
theorem C8_no_unreachable_dispatch (ctxt : CommandContext) (fence : GLsync)
    (oracle : DriverOracle) (hs : fence_supported ctxt = true) :
    (client_wait ctxt fence oracle).2 ≠ Except.error Panic.unreachableVariant ∧
    ((client_wait ctxt fence oracle).1 =
        [DriverCall.clientWaitSync (dispatchVariant ctxt) fence 0 0] ∨
      (client_wait ctxt fence oracle).1 =
        [DriverCall.clientWaitSync (dispatchVariant ctxt) fence 0 0,
         DriverCall.clientWaitSync (dispatchVariant ctxt) fence
           (flushBitOf (dispatchVariant ctxt)) (365 * 24 * 3600 * 1000 * 1000 * 1000)]) ∧
    delete_fence ctxt fence =
      ([DriverCall.deleteSync (dispatchVariant ctxt) fence], Except.ok ()) := by
  by_cases hA : oracle 0 = ALREADY_SIGNALED ∨ oracle 0 = CONDITION_SATISFIED
  · have hcw := @client_wait_signaled ctxt fence oracle hs hA
    exact ⟨by simp [hcw], Or.inl (by simp [hcw]), delete_fence_eq hs fence⟩
  · by_cases hB : oracle 0 = TIMEOUT_EXPIRED ∨ oracle 0 = WAIT_FAILED
    · have hcw := @client_wait_timeout ctxt fence oracle hs hB
      exact ⟨by simp [hcw], Or.inr (by simp [hcw]), delete_fence_eq hs fence⟩
    · have hcw := @client_wait_unreachable_result ctxt fence oracle hs hA hB
      exact ⟨by simp [hcw], Or.inl (by simp [hcw]), delete_fence_eq hs fence⟩

/-- Witness for C8: on the concrete Apple-extension context, `delete_fence`
dispatches to the single APPLE delete call and succeeds. -/
theorem C8_witness :
    delete_fence ctxtApple 5 =
      ([DriverCall.deleteSync (dispatchVariant ctxtApple) 5], Except.ok ()) :=
  (C8_no_unreachable_dispatch ctxtApple 5 oracleSignaled (by decide)).2.2

/-- C9: in `SyncFence::wait`, the handle is deleted before the wait result is
inspected: in the contract-violating scenario (poll times out or fails, the
flushing wait answers anything non-signalled), the call trace already contains
the delete as its final driver call, exactly one delete on the handle was
issued, the fence's `id` is `none`, and its destructor during unwinding issues
no further call, even though `wait` ends in the wait-contract-violation
panic. -/
theorem C9_delete_precedes_inspection (ctxt : CommandContext) (s : GLsync)
    (oracle : DriverOracle) (hs : fence_supported ctxt = true)
    (h0 : oracle 0 = TIMEOUT_EXPIRED ∨ oracle 0 = WAIT_FAILED)
    (h1 : oracle 1 ≠ ALREADY_SIGNALED ∧ oracle 1 ≠ CONDITION_SATISFIED) :
    (SyncFence.wait { context := ctxt, id := some s } oracle).1 =
      [DriverCall.makeCurrent,
       DriverCall.clientWaitSync (dispatchVariant ctxt) s 0 0,
       DriverCall.clientWaitSync (dispatchVariant ctxt) s
         (flushBitOf (dispatchVariant ctxt)) (365 * 24 * 3600 * 1000 * 1000 * 1000),
       DriverCall.deleteSync (dispatchVariant ctxt) s] ∧
    (SyncFence.wait { context := ctxt, id := some s } oracle).2.2 =
      Except.error Panic.waitContractViolation ∧
    deleteCount (SyncFence.wait { context := ctxt, id := some s } oracle).1 s = 1 ∧
    (SyncFence.wait { context := ctxt, id := some s } oracle).2.1.id = none ∧
    (SyncFence.drop (SyncFence.wait { context := ctxt, id := some s } oracle).2.1).1 = [] := by
  have hcw := @client_wait_timeout ctxt s oracle hs h0
  have hdel := delete_fence_eq hs s
  refine ⟨?_, ?_, ?_, ?_, ?_⟩ <;>
    simp [SyncFence.wait, SyncFence.drop, hcw, hdel, deleteCount, h1.1, h1.2]

/-- Witness for C9: concrete GL 4.5 context, handle 9, driver stuck on
`TIMEOUT_EXPIRED`: the delete call closes the trace even though `wait` ends in
the panic. -/
theorem C9_witness :
    (SyncFence.wait { context := ctxtCore, id := some 9 } oracleTimeout).1 =
      [DriverCall.makeCurrent,
       DriverCall.clientWaitSync (dispatchVariant ctxtCore) 9 0 0,
       DriverCall.clientWaitSync (dispatchVariant ctxtCore) 9
         (flushBitOf (dispatchVariant ctxtCore)) (365 * 24 * 3600 * 1000 * 1000 * 1000),
       DriverCall.deleteSync (dispatchVariant ctxtCore) 9] :=
  (C9_delete_precedes_inspection ctxtCore 9 oracleTimeout (by decide) (Or.inl rfl)
    ⟨by decide, by decide⟩).1

/-- C10: `wait_linear_sync_fence_and_drop` discards the result of
`client_wait`: whichever of its documented outcomes the driver returns to the
poll, and whatever the flushing wait answers (timeout and failure included),
the handle is deleted exactly once and the function returns normally, never
raising the wait-contract-violation panic that `SyncFence::wait` raises. -/
theorem C10_raw_wait_discards_result (ctxt : CommandContext) (h : GLsync)
    (oracle : DriverOracle) (hs : fence_supported ctxt = true)
    (h0 : oracle 0 = ALREADY_SIGNALED ∨ oracle 0 = CONDITION_SATISFIED ∨
          oracle 0 = TIMEOUT_EXPIRED ∨ oracle 0 = WAIT_FAILED) :
    (wait_linear_sync_fence_and_drop { id := some h } ctxt oracle).2.2 = Except.ok () ∧
    deleteCount (wait_linear_sync_fence_and_drop { id := some h } ctxt oracle).1 h = 1 ∧
    (wait_linear_sync_fence_and_drop { id := some h } ctxt oracle).2.1.id = none := by
  have hdel := delete_fence_eq hs h
  rcases @client_wait_documented ctxt h oracle hs h0 with hcw | hcw <;>
    refine ⟨?_, ?_, ?_⟩ <;>
      simp [wait_linear_sync_fence_and_drop, hcw, hdel, deleteCount]

/-- Witness for C10: Apple-extension context, handle 11, driver stuck on
`TIMEOUT_EXPIRED` (so the flushing wait also times out): the raw entry point
still returns normally. -/
theorem C10_witness :
    (wait_linear_sync_fence_and_drop { id := some 11 } ctxtApple oracleTimeout).2.2 =
      Except.ok () :=
  (C10_raw_wait_discards_result ctxtApple 11 oracleTimeout (by decide)
    (Or.inr (Or.inr (Or.inl rfl)))).1
